import Mathlib

/-!
Shallow embedding of the two scripted browser-test flows of this repository
(`testsprite_tests/TC004_Password_Reset_Flow.py` and
`testsprite_tests/TC013_Invoice_Payment_Status_and_Error_Handling.py`).

Each Python file is one `run_test` coroutine with the shape:

  try:
    pw = start driver; browser = launch; context = new_context (default timeout 5000);
    page = new_page; goto(base, wait_until="commit", timeout=10000);
    best-effort wait_for_load_state on the page and on every frame (each 3000 ms,
    `except async_api.Error: pass`);
    a fixed sequence of (wait_for_timeout(3000); click/fill) steps
    [TC004 also has a mid-flow goto plus asyncio.sleep(3)];
    final `expect(...).to_be_visible(timeout)` whose AssertionError is re-raised
    with a domain message; asyncio.sleep(5)
  finally:
    if context: context.close(); if browser: browser.close(); if pw: pw.stop()

The embedding makes the environment explicit: every primitive browser call is
given its result (success, or a raised exception of some Python type) by an
`Env` record, and the runner threads those results through the control flow of
the script, producing the propagated exception (if any) and the trace of calls
made.  Exception types are modelled by `Exc`: `pwError` stands for
`playwright.async_api.Error` (which includes `TimeoutError`), `assertionError`
for Python `AssertionError`, `otherExc` for every other exception type.
-/

namespace S2P

/-- A raised Python exception, classified by the exception types the scripts
distinguish in their `except` clauses. -/
inductive Exc where
  | pwError (msg : String)
  | assertionError (msg : String)
  | otherExc (msg : String)
deriving DecidableEq

/-- `playwright.async_api.Error` test: the only class caught by the
best-effort `except async_api.Error: pass` clauses. -/
def Exc.isPwError : Exc → Bool
  | .pwError _ => true
  | _ => false

/-- Python `AssertionError` test: the class caught around the final
`expect(...).to_be_visible`. -/
def Exc.isAssertionError : Exc → Bool
  | .assertionError _ => true
  | _ => false

/-- `wait_until` policy of `page.goto`: `"commit"` when passed explicitly,
`load` for Playwright's default (no `wait_until` argument). -/
inductive WaitUntil where
  | commit
  | load
deriving DecidableEq

/-- One observable call made by a flow, in program order. -/
inductive Event where
  | driverStart
  | browserLaunch
  | contextNew
  | setDefaultTimeout (ms : Nat)
  | pageNew
  | goto (url : String) (wu : WaitUntil) (timeoutMs : Nat)
  | mainWait (timeoutMs : Nat)
  | frameWait (idx : Nat) (timeoutMs : Nat)
  | settle (ms : Nat)
  | click (selector : String) (timeoutMs : Nat)
  | fill (selector : String) (value : String) (timeoutMs : Nat)
  | sleepSecs (s : Nat)
  | expectVisible (text : String) (timeoutMs : Nat)
  | closeContext
  | closeBrowser
  | stopDriver
deriving DecidableEq

/-- A step interaction: `elem.click(timeout=...)` or `elem.fill(value)`
(`fill` has no explicit timeout in the scripts; it uses the context default). -/
inductive Action where
  | click (timeoutMs : Nat)
  | fill (value : String)
deriving DecidableEq

/-- One item of a flow body: a settle-then-interact step, a mid-flow
`page.goto`, or an `asyncio.sleep`. -/
inductive FlowItem where
  | interact (selector : String) (act : Action)
  | navigate (url : String) (wu : WaitUntil) (timeoutMs : Nat)
  | sleep (s : Nat)
deriving DecidableEq

/-- Static description of one test file: base URL, body items, final
assertion text and timeout, and the domain failure message raised when the
assertion times out. -/
structure Flow where
  baseUrl : String
  items : List FlowItem
  assertText : String
  assertTimeoutMs : Nat
  failMsg : String

/-- Results the outside world gives to each primitive call of a flow run:
`none` is success, `some e` means the call raises `e`.  `frameWaits` has one
entry per frame in `page.frames`; `navs` is consumed by the `page.goto` calls
in order; `actions` by the click/fill calls in order.  Entries missing from a
list default to success. -/
structure Env where
  startResult : Option Exc
  launchResult : Option Exc
  newContextResult : Option Exc
  newPageResult : Option Exc
  mainLoadWait : Option Exc
  frameWaits : List (Option Exc)
  navs : List (Option Exc)
  actions : List (Option Exc)
  assertResult : Option Exc
deriving DecidableEq

/-- The `except async_api.Error: pass` wrapper around a load-state wait:
an `async_api.Error` is swallowed, any other exception propagates. -/
def bestEffortWait : Option Exc → Option Exc
  | none => none
  | some e => if e.isPwError then none else some e

/-- A load-state result that the best-effort wrapper recovers from:
success or an `async_api.Error`. -/
def benign : Option Exc → Bool
  | none => true
  | some e => e.isPwError

/-- Sequencing of two effectful phases: if the first raised, its exception
propagates and the second never runs; otherwise both traces happen. -/
def andThen (r s : Option Exc × List Event) : Option Exc × List Event :=
  match r.1 with
  | some e => (some e, r.2)
  | none => (s.1, r.2 ++ s.2)

/-- A single primitive call: it is attempted (one trace event) and yields
the result the environment assigns to it. -/
def opStep (res : Option Exc) (ev : Event) : Option Exc × List Event :=
  (res, [ev])

/-- The `for frame in page.frames:` loop of best-effort
`wait_for_load_state("domcontentloaded", timeout=3000)` calls. -/
def frameLoop : List (Option Exc) → Nat → Option Exc × List Event
  | [], _ => (none, [])
  | w :: ws, i =>
    match bestEffortWait w with
    | some e => (some e, [Event.frameWait i 3000])
    | none =>
      ((frameLoop ws (i + 1)).1, Event.frameWait i 3000 :: (frameLoop ws (i + 1)).2)

/-- The trace event of one interaction, with `fill` taking the context
default timeout `dt` (`context.set_default_timeout(5000)`). -/
def actEvent (dt : Nat) (sel : String) : Action → Event
  | .click t => Event.click sel t
  | .fill v => Event.fill sel v dt

/-- The flow body: each interact step is `page.wait_for_timeout(3000)`
followed by the click/fill; a failure of the click/fill propagates and
aborts everything after it.  Mid-flow `goto` calls consume `navs`;
`asyncio.sleep` never fails. -/
def runItems (dt : Nat) : List FlowItem → List (Option Exc) → List (Option Exc) →
    Option Exc × List Event
  | [], _, _ => (none, [])
  | .interact sel a :: rest, acts, navs =>
    match acts.headD none with
    | some e => (some e, [Event.settle 3000, actEvent dt sel a])
    | none =>
      ((runItems dt rest acts.tail navs).1,
        Event.settle 3000 :: actEvent dt sel a :: (runItems dt rest acts.tail navs).2)
  | .navigate url wu t :: rest, acts, navs =>
    match navs.headD none with
    | some e => (some e, [Event.goto url wu t])
    | none =>
      ((runItems dt rest acts navs.tail).1, Event.goto url wu t :: (runItems dt rest acts navs.tail).2)
  | .sleep s :: rest, acts, navs =>
    ((runItems dt rest acts navs).1, Event.sleepSecs s :: (runItems dt rest acts navs).2)

/-- The full authored body trace, when every call succeeds. -/
def itemsEvents (dt : Nat) : List FlowItem → List Event
  | [] => []
  | .interact sel a :: rest => Event.settle 3000 :: actEvent dt sel a :: itemsEvents dt rest
  | .navigate url wu t :: rest => Event.goto url wu t :: itemsEvents dt rest
  | .sleep s :: rest => Event.sleepSecs s :: itemsEvents dt rest

/-- Number of click/fill steps in a body. -/
def interactCount : List FlowItem → Nat
  | [] => 0
  | .interact _ _ :: rest => interactCount rest + 1
  | _ :: rest => interactCount rest

/-- The final block:
`try: await expect(locator(assertText)).to_be_visible(timeout)`
`except AssertionError: raise AssertionError(failMsg)`, then
`asyncio.sleep(5)` on success.  A non-`AssertionError` exception from the
expectation propagates unchanged. -/
def runAssert (cfg : Flow) (env : Env) : Option Exc × List Event :=
  match env.assertResult with
  | none => (none, [Event.expectVisible cfg.assertText cfg.assertTimeoutMs, Event.sleepSecs 5])
  | some e =>
    if e.isAssertionError then
      (some (Exc.assertionError cfg.failMsg), [Event.expectVisible cfg.assertText cfg.assertTimeoutMs])
    else
      (some e, [Event.expectVisible cfg.assertText cfg.assertTimeoutMs])

/-- Everything inside the `try` after the page exists: the initial
`goto(base, wait_until="commit", timeout=10000)`, the best-effort main
load-state wait, the frame loop, the body items, the final assertion. -/
def runMain (cfg : Flow) (env : Env) : Option Exc × List Event :=
  andThen (opStep (env.navs.headD none) (Event.goto cfg.baseUrl WaitUntil.commit 10000))
    (andThen (opStep (bestEffortWait env.mainLoadWait) (Event.mainWait 3000))
      (andThen (frameLoop env.frameWaits 0)
        (andThen (runItems 5000 cfg.items env.actions env.navs.tail)
          (runAssert cfg env))))

/-- The `finally` block: `if context: await context.close()`,
`if browser: await browser.close()`, `if pw: await pw.stop()` — each close
runs exactly when its handle was assigned (its acquisition succeeded). -/
def teardown (ctx brw drv : Bool) : List Event :=
  (if ctx then [Event.closeContext] else []) ++
    (if brw then [Event.closeBrowser] else []) ++
      (if drv then [Event.stopDriver] else [])

/-- Events of the acquisition sequence when it fully succeeds. -/
def setupTrace : List Event :=
  [Event.driverStart, Event.browserLaunch, Event.contextNew,
   Event.setDefaultTimeout 5000, Event.pageNew]

/-- One whole `run_test` execution: acquisition (each handle variable is
assigned only if its call returns), the main body, and the guarded
`finally` teardown on every exit path.  The first component is the
exception propagating out of `run_test` to `asyncio.run` (`none` when the
flow passes). -/
def runFlow (cfg : Flow) (env : Env) : Option Exc × List Event :=
  match env.startResult with
  | some e => (some e, teardown false false false)
  | none =>
    match env.launchResult with
    | some e => (some e, Event.driverStart :: teardown false false true)
    | none =>
      match env.newContextResult with
      | some e => (some e, [Event.driverStart, Event.browserLaunch] ++ teardown false true true)
      | none =>
        match env.newPageResult with
        | some e =>
          (some e, [Event.driverStart, Event.browserLaunch, Event.contextNew,
            Event.setDefaultTimeout 5000] ++ teardown true true true)
        | none =>
          ((runMain cfg env).1, setupTrace ++ (runMain cfg env).2 ++ teardown true true true)

/-- Driver acquisition succeeded (`pw` was assigned). -/
def drvAcq (env : Env) : Bool := env.startResult.isNone

/-- Browser acquisition succeeded (`browser` was assigned). -/
def browAcq (env : Env) : Bool := drvAcq env && env.launchResult.isNone

/-- Context acquisition succeeded (`context` was assigned). -/
def ctxAcq (env : Env) : Bool := browAcq env && env.newContextResult.isNone

/-- `TC004_Password_Reset_Flow.py`, transcribed. -/
def tc004 : Flow where
  baseUrl := "http://localhost:3000"
  items :=
    [FlowItem.interact "xpath=html/body/div/div/div[2]/div/div/form/div[3]/button" (Action.click 5000),
     FlowItem.interact "xpath=html/body/div/div/div[2]/div/form/div[2]/input" (Action.fill "test@simplifaq.ch"),
     FlowItem.interact "xpath=html/body/div/div/div[2]/div/form/button" (Action.click 5000),
     FlowItem.navigate "http://localhost:3000/reset-password?token=exampletoken" WaitUntil.load 10000,
     FlowItem.sleep 3,
     FlowItem.interact "xpath=html/body/div/div/div[2]/div/form/div[2]/div/input" (Action.fill "NewPass123!"),
     FlowItem.interact "xpath=html/body/div/div/div[2]/div/form/div[3]/div/input" (Action.fill "NewPass123!"),
     FlowItem.interact "xpath=html/body/div/div/div[2]/div/form/button" (Action.click 5000)]
  assertText := "Password Reset Successful!"
  assertTimeoutMs := 3000
  failMsg := "Test failed: Password reset process did not complete successfully as expected. The password reset email might not have been sent or the password was not updated."

/-- `TC013_Invoice_Payment_Status_and_Error_Handling.py`, transcribed. -/
def tc013 : Flow where
  baseUrl := "http://localhost:3000"
  items :=
    [FlowItem.interact "xpath=html/body/div/div/div[2]/div/div/form/div/div/input" (Action.fill "demo@chocolaterie-suisse.ch"),
     FlowItem.interact "xpath=html/body/div/div/div[2]/div/div/form/div[2]/div/input" (Action.fill "DemoUser2024!"),
     FlowItem.interact "xpath=html/body/div/div/div[2]/div/div/form/button" (Action.click 5000),
     FlowItem.interact "xpath=html/body/div/div/div[2]/div/div/form/div/div/input" (Action.fill "demo@chocolaterie-suisse.ch"),
     FlowItem.interact "xpath=html/body/div/div/div[2]/div/div/form/div[2]/div/input" (Action.fill "DemoUser2024!"),
     FlowItem.interact "xpath=html/body/div/div/div[2]/div/div/form/button" (Action.click 5000),
     FlowItem.interact "xpath=html/body/div/div/div[2]/main/div/div/main/div/div/div/div[2]/button" (Action.click 5000),
     FlowItem.interact "xpath=html/body/div/div/div[2]/div/div/form/div/div/input" (Action.fill "demo@chocolaterie-suisse.ch"),
     FlowItem.interact "xpath=html/body/div/div/div[2]/div/div/form/div[2]/div/input" (Action.fill "DemoUser2024!"),
     FlowItem.interact "xpath=html/body/div/div/div[2]/div/div/form/button" (Action.click 5000),
     FlowItem.interact "xpath=html/body/div/div/div[2]/main/div/div/main/div/div/div/div[2]/button" (Action.click 5000),
     FlowItem.interact "xpath=html/body/div/div/div[2]/main/div/div/form/div/div[2]/button[2]" (Action.click 5000),
     FlowItem.interact "xpath=html/body/div/div/div[2]/main/div/div/form/div[3]/div/div/div/div/div/div/div/div/input" (Action.fill "Chocolaterie Suisse SA"),
     FlowItem.interact "xpath=html/body/div/div/div[2]/main/div/div/form/div[3]/div/div/div/div/div[2]/div/button" (Action.click 5000)]
  assertText := "Invoice Payment Confirmed Successfully"
  assertTimeoutMs := 1000
  failMsg := "Test failed: Invoice status did not update from Sent to Paid upon payment confirmation, or error states were not handled gracefully as per the test plan."

/-- Event classifiers. -/
def isAction : Event → Bool
  | .click _ _ => true
  | .fill _ _ _ => true
  | _ => false

def isSettle : Event → Bool
  | .settle _ => true
  | _ => false

def isGoto : Event → Bool
  | .goto _ _ _ => true
  | _ => false

def isExpect : Event → Bool
  | .expectVisible _ _ => true
  | _ => false

def isFrameWait : Event → Bool
  | .frameWait _ _ => true
  | _ => false

/-- Events a body item (settle, click, fill, mid-flow goto, sleep) can emit. -/
def isStepEvent : Event → Bool
  | .settle _ => true
  | .click _ _ => true
  | .fill _ _ _ => true
  | .goto _ _ _ => true
  | .sleepSecs _ => true
  | _ => false

/-- Events the final-assertion block can emit. -/
def isAssertEvent : Event → Bool
  | .expectVisible _ _ => true
  | .sleepSecs _ => true
  | _ => false

def isTeardown : Event → Bool
  | .closeContext => true
  | .closeBrowser => true
  | .stopDriver => true
  | _ => false

/-- Events a flow body can emit (everything between acquisition and
teardown). -/
def isBody : Event → Bool
  | .goto _ _ _ => true
  | .mainWait _ => true
  | .frameWait _ _ => true
  | .settle _ => true
  | .click _ _ => true
  | .fill _ _ _ => true
  | .sleepSecs _ => true
  | .expectVisible _ _ => true
  | _ => false

/-- `pat` occurs at the start of `s`. -/
def strStartsWith : List Char → List Char → Bool
  | [], _ => true
  | _ :: _, [] => false
  | a :: as, b :: bs => a == b && strStartsWith as bs

/-- `pat` occurs somewhere in `s` (contiguously). -/
def strFind (pat : List Char) : List Char → Bool
  | [] => pat.isEmpty
  | c :: t => strStartsWith pat (c :: t) || strFind pat t

/-- Substring containment on strings. -/
def containsSub (s pat : String) : Bool := strFind pat.data s.data

/-- All gotos a flow can ever make carry the 10000 ms outer timeout. -/
def gotoTimeoutOk : Event → Bool
  | .goto _ _ t => t == 10000
  | _ => true

/-- Click and fill calls carry a 5000 ms bound (explicit for click,
the context default for fill). -/
def actionTimeoutOk : Event → Bool
  | .click _ t => t == 5000
  | .fill _ _ t => t == 5000
  | _ => true

/-- All acquisition succeeded: the flow reaches the main body. -/
def setupOk (env : Env) : Prop :=
  env.startResult = none ∧ env.launchResult = none ∧
    env.newContextResult = none ∧ env.newPageResult = none

/-- The propagated result of the main body when all load-state waits are
benign: it depends only on navigations, actions and the assertion. -/
def mainAfterWaits (cfg : Flow) (env : Env) : Option Exc :=
  match env.navs.headD none with
  | some e => some e
  | none =>
    match (runItems 5000 cfg.items env.actions env.navs.tail).1 with
    | some e => some e
    | none => (runAssert cfg env).1

/-! ### Basic lemmas about the sequencing combinators -/

theorem andThen_ok {r : Option Exc × List Event} (s : Option Exc × List Event)
    (h : r.1 = none) : andThen r s = (s.1, r.2 ++ s.2) := by
  unfold andThen; rw [h]

theorem andThen_fail {r : Option Exc × List Event} (s : Option Exc × List Event) (e : Exc)
    (h : r.1 = some e) : andThen r s = (some e, r.2) := by
  unfold andThen; rw [h]

theorem mem_andThen {r s : Option Exc × List Event} {e : Event}
    (h : e ∈ (andThen r s).2) : e ∈ r.2 ∨ e ∈ s.2 := by
  unfold andThen at h
  split at h
  · exact Or.inl h
  · exact List.mem_append.mp h

theorem andThen_trace_isPre (r s : Option Exc × List Event) :
    (andThen r s).2 <+: r.2 ++ s.2 := by
  unfold andThen
  split
  · exact ⟨s.2, rfl⟩
  · exact ⟨[], by simp⟩

theorem bestEffortWait_eq_none_iff (w : Option Exc) :
    bestEffortWait w = none ↔ benign w = true := by
  cases w with
  | none => simp [bestEffortWait, benign]
  | some e => cases e <;> simp [bestEffortWait, benign, Exc.isPwError]

theorem headD_none {l : List (Option Exc)} (h : ∀ r ∈ l, r = none) :
    l.headD none = none := by
  cases l with
  | nil => rfl
  | cons a t => exact h a (List.mem_cons_self a t)

theorem allNone_tail {l : List (Option Exc)} (h : ∀ r ∈ l, r = none) :
    ∀ r ∈ l.tail, r = none := by
  cases l with
  | nil => simp
  | cons a t => exact fun r hr => h r (List.mem_cons_of_mem a hr)

/-! ### The frame loop -/

theorem frameLoop_fst_benign (ws : List (Option Exc)) (i : Nat)
    (h : ∀ w ∈ ws, benign w = true) : (frameLoop ws i).1 = none := by
  induction ws generalizing i with
  | nil => rfl
  | cons w ws ih =>
    have hw : bestEffortWait w = none :=
      (bestEffortWait_eq_none_iff w).mpr (h w (List.mem_cons_self w ws))
    simp only [frameLoop, hw]
    exact ih (i + 1) (fun x hx => h x (List.mem_cons_of_mem w hx))

theorem frameLoop_events (ws : List (Option Exc)) (i : Nat) :
    ∀ e ∈ (frameLoop ws i).2, isFrameWait e = true := by
  induction ws generalizing i with
  | nil => simp [frameLoop]
  | cons w ws ih =>
    intro e he
    simp only [frameLoop] at he
    split at he
    · simp at he; subst he; rfl
    · simp at he
      rcases he with he | he
      · subst he; rfl
      · exact ih (i + 1) e he

/-! ### The step sequence -/

theorem runItems_ok (dt : Nat) (items : List FlowItem) (acts navs : List (Option Exc))
    (ha : ∀ r ∈ acts, r = none) (hn : ∀ r ∈ navs, r = none) :
    runItems dt items acts navs = (none, itemsEvents dt items) := by
  induction items generalizing acts navs with
  | nil => rfl
  | cons it rest ih =>
    cases it with
    | interact sel a =>
      simp only [runItems, itemsEvents, headD_none ha,
        ih acts.tail navs (allNone_tail ha) hn]
    | navigate u w t =>
      simp only [runItems, itemsEvents, headD_none hn,
        ih acts navs.tail ha (allNone_tail hn)]
    | sleep s =>
      simp only [runItems, itemsEvents, ih acts navs ha hn]

theorem runItems_trace_isPre (dt : Nat) (items : List FlowItem)
    (acts navs : List (Option Exc)) :
    (runItems dt items acts navs).2 <+: itemsEvents dt items := by
  induction items generalizing acts navs with
  | nil => exact ⟨[], rfl⟩
  | cons it rest ih =>
    cases it with
    | interact sel a =>
      cases h : acts.headD none with
      | some e =>
        exact ⟨itemsEvents dt rest, by simp only [runItems, itemsEvents, h]; rfl⟩
      | none =>
        obtain ⟨t, ht⟩ := ih acts.tail navs
        exact ⟨t, by simp only [runItems, itemsEvents, h, List.cons_append, ht]⟩
    | navigate u w tm =>
      cases h : navs.headD none with
      | some e =>
        exact ⟨itemsEvents dt rest, by simp only [runItems, itemsEvents, h]; rfl⟩
      | none =>
        obtain ⟨t, ht⟩ := ih acts navs.tail
        exact ⟨t, by simp only [runItems, itemsEvents, h, List.cons_append, ht]⟩
    | sleep s =>
      obtain ⟨t, ht⟩ := ih acts navs
      exact ⟨t, by simp only [runItems, itemsEvents, List.cons_append, ht]⟩

theorem itemsEvents_step (dt : Nat) (items : List FlowItem) :
    ∀ e ∈ itemsEvents dt items, isStepEvent e = true := by
  induction items with
  | nil => simp [itemsEvents]
  | cons it rest ih =>
    intro e he
    cases it with
    | interact sel a =>
      simp only [itemsEvents, List.mem_cons] at he
      rcases he with he | he | he
      · subst he; rfl
      · subst he; cases a <;> rfl
      · exact ih e he
    | navigate u w t =>
      simp only [itemsEvents, List.mem_cons] at he
      rcases he with he | he
      · subst he; rfl
      · exact ih e he
    | sleep s =>
      simp only [itemsEvents, List.mem_cons] at he
      rcases he with he | he
      · subst he; rfl
      · exact ih e he

theorem runItems_events_step (dt : Nat) (items : List FlowItem)
    (acts navs : List (Option Exc)) :
    ∀ e ∈ (runItems dt items acts navs).2, isStepEvent e = true := by
  intro e he
  obtain ⟨t, ht⟩ := runItems_trace_isPre dt items acts navs
  exact itemsEvents_step dt items e (ht ▸ List.mem_append_left t he)

/-! ### The assertion block -/

theorem runAssert_events (cfg : Flow) (env : Env) :
    ∀ e ∈ (runAssert cfg env).2, isAssertEvent e = true := by
  intro e he
  unfold runAssert at he
  split at he
  · simp at he
    rcases he with he | he <;> subst he <;> rfl
  · split at he <;> simp at he <;> subst he <;> rfl

theorem runAssert_fst_none (cfg : Flow) (env : Env) (h : env.assertResult = none) :
    runAssert cfg env =
      (none, [Event.expectVisible cfg.assertText cfg.assertTimeoutMs, Event.sleepSecs 5]) := by
  unfold runAssert; rw [h]

theorem runAssert_fst_assertionError (cfg : Flow) (env : Env) (m : String)
    (h : env.assertResult = some (Exc.assertionError m)) :
    runAssert cfg env =
      (some (Exc.assertionError cfg.failMsg),
        [Event.expectVisible cfg.assertText cfg.assertTimeoutMs]) := by
  unfold runAssert; rw [h]; rfl

theorem runAssert_fst_some (cfg : Flow) (env : Env) :
    (runAssert cfg env).1 = none ↔ env.assertResult = none := by
  unfold runAssert
  cases h : env.assertResult with
  | none => simp
  | some e => cases e <;> simp [Exc.isAssertionError]

/-! ### Kind coercions between the event classifiers -/

theorem isBody_of_isFrameWait {e : Event} (h : isFrameWait e = true) : isBody e = true := by
  cases e <;> simp_all [isFrameWait, isBody]

theorem isBody_of_isStepEvent {e : Event} (h : isStepEvent e = true) : isBody e = true := by
  cases e <;> simp_all [isStepEvent, isBody]

theorem isBody_of_isAssertEvent {e : Event} (h : isAssertEvent e = true) : isBody e = true := by
  cases e <;> simp_all [isAssertEvent, isBody]

theorem not_isTeardown_of_isBody {e : Event} (h : isBody e = true) : isTeardown e = false := by
  cases e <;> simp_all [isBody, isTeardown]

theorem ne_driverStart_of_isBody {e : Event} (h : isBody e = true) : e ≠ Event.driverStart := by
  cases e <;> simp_all [isBody]

theorem not_isExpect_of_isStepEvent {e : Event} (h : isStepEvent e = true) :
    isExpect e = false := by
  cases e <;> simp_all [isStepEvent, isExpect]

theorem not_isExpect_of_isFrameWait {e : Event} (h : isFrameWait e = true) :
    isExpect e = false := by
  cases e <;> simp_all [isFrameWait, isExpect]

/-! ### The main body -/

theorem andThen_fst (r s : Option Exc × List Event) :
    (andThen r s).1 = match r.1 with | some e => some e | none => s.1 := by
  unfold andThen; split <;> simp_all

theorem runMain_events (cfg : Flow) (env : Env) :
    ∀ e ∈ (runMain cfg env).2, isBody e = true := by
  intro e he
  unfold runMain at he
  rcases mem_andThen he with h | h
  · simp [opStep] at h; subst h; rfl
  rcases mem_andThen h with h | h
  · simp [opStep] at h; subst h; rfl
  rcases mem_andThen h with h | h
  · exact isBody_of_isFrameWait (frameLoop_events env.frameWaits 0 e h)
  rcases mem_andThen h with h | h
  · exact isBody_of_isStepEvent (runItems_events_step 5000 cfg.items env.actions env.navs.tail e h)
  · exact isBody_of_isAssertEvent (runAssert_events cfg env e h)

theorem runMain_fst_benign (cfg : Flow) (env : Env)
    (hm : benign env.mainLoadWait = true)
    (hf : ∀ w ∈ env.frameWaits, benign w = true) :
    (runMain cfg env).1 = mainAfterWaits cfg env := by
  simp only [runMain, mainAfterWaits, andThen_fst, opStep,
    (bestEffortWait_eq_none_iff env.mainLoadWait).mpr hm,
    frameLoop_fst_benign env.frameWaits 0 hf]

/-! ### The whole flow -/

theorem runFlow_setupOk (cfg : Flow) (env : Env) (h : setupOk env) :
    runFlow cfg env =
      ((runMain cfg env).1, setupTrace ++ (runMain cfg env).2 ++ teardown true true true) := by
  obtain ⟨h1, h2, h3, h4⟩ := h
  unfold runFlow
  rw [h1, h2, h3, h4]

theorem teardown_filter_self (c b d : Bool) :
    (teardown c b d).filter isTeardown = teardown c b d := by
  cases c <;> cases b <;> cases d <;> rfl

theorem teardown_sub_canonical (c b d : Bool) :
    List.Sublist (teardown c b d)
      [Event.closeContext, Event.closeBrowser, Event.stopDriver] := by
  cases c <;> cases b <;> cases d <;> decide

theorem runMain_filter_teardown (cfg : Flow) (env : Env) :
    (runMain cfg env).2.filter isTeardown = [] := by
  refine List.filter_eq_nil_iff.mpr fun e he => ?_
  have := not_isTeardown_of_isBody (runMain_events cfg env e he)
  simp [this]

theorem runFlow_filter_teardown (cfg : Flow) (env : Env) :
    (runFlow cfg env).2.filter isTeardown =
      teardown (ctxAcq env) (browAcq env) (drvAcq env) := by
  unfold runFlow
  cases h1 : env.startResult with
  | some e => simp [drvAcq, browAcq, ctxAcq, h1, teardown_filter_self]
  | none =>
  cases h2 : env.launchResult with
  | some e =>
    simp [drvAcq, browAcq, ctxAcq, h1, h2, List.filter, isTeardown, teardown_filter_self, teardown]
  | none =>
  cases h3 : env.newContextResult with
  | some e =>
    simp [drvAcq, browAcq, ctxAcq, h1, h2, h3, List.filter, isTeardown, teardown_filter_self, teardown]
  | none =>
  cases h4 : env.newPageResult with
  | some e =>
    simp [drvAcq, browAcq, ctxAcq, h1, h2, h3, h4, List.filter, isTeardown, teardown_filter_self, teardown]
  | none =>
    simp only [List.filter_append, runMain_filter_teardown, teardown_filter_self]
    simp [drvAcq, browAcq, ctxAcq, h1, h2, h3, setupTrace, List.filter, isTeardown]

theorem ne_stopDriver_of_isBody {e : Event} (h : isBody e = true) : e ≠ Event.stopDriver := by
  cases e <;> simp_all [isBody]

theorem runMain_count_driverStart (cfg : Flow) (env : Env) :
    (runMain cfg env).2.count Event.driverStart = 0 :=
  List.count_eq_zero.mpr fun hmem =>
    ne_driverStart_of_isBody (runMain_events cfg env _ hmem) rfl

theorem runMain_count_stopDriver (cfg : Flow) (env : Env) :
    (runMain cfg env).2.count Event.stopDriver = 0 :=
  List.count_eq_zero.mpr fun hmem =>
    ne_stopDriver_of_isBody (runMain_events cfg env _ hmem) rfl

theorem mem_teardown_ctx (c b d : Bool) :
    Event.closeContext ∈ teardown c b d ↔ c = true := by
  cases c <;> cases b <;> cases d <;> decide

theorem mem_teardown_brw (c b d : Bool) :
    Event.closeBrowser ∈ teardown c b d ↔ b = true := by
  cases c <;> cases b <;> cases d <;> decide

theorem mem_teardown_drv (c b d : Bool) :
    Event.stopDriver ∈ teardown c b d ↔ d = true := by
  cases c <;> cases b <;> cases d <;> decide

/-- Claim C1: for every flow execution in which session acquisition begins and
the driver session comes into being (the driver start call returns), exactly
one session is created and exactly one is torn down — `driverStart` and
`stopDriver` each occur exactly once in the trace, whether the run ends in
pass, assertion failure, or an infrastructure/interaction error — and the
teardown events released form a sublist of the canonical order
Context, then Browser, then Driver. -/
theorem session_teardown_invariant (cfg : Flow) (env : Env)
    (h : env.startResult = none) :
    (runFlow cfg env).2.count Event.driverStart = 1 ∧
    (runFlow cfg env).2.count Event.stopDriver = 1 ∧
    List.Sublist ((runFlow cfg env).2.filter isTeardown)
      [Event.closeContext, Event.closeBrowser, Event.stopDriver] := by
  refine ⟨?_, ?_, runFlow_filter_teardown cfg env ▸ teardown_sub_canonical _ _ _⟩
  all_goals
    simp only [runFlow, h]
    cases h2 : env.launchResult with
    | some e => simp [teardown, List.count_cons, List.count_nil]
    | none =>
    cases h3 : env.newContextResult with
    | some e => simp [teardown, List.count_cons, List.count_nil]
    | none =>
    cases h4 : env.newPageResult with
    | some e => simp [teardown, List.count_cons, List.count_nil]
    | none =>
      simp [List.count_append, runMain_count_driverStart, runMain_count_stopDriver,
        setupTrace, teardown, List.count_cons]

/-- A concrete execution exercising Claim C1: all acquisition succeeds and the
second step's click fails with an interaction error. -/
def envC1 : Env where
  startResult := none
  launchResult := none
  newContextResult := none
  newPageResult := none
  mainLoadWait := some (Exc.pwError "load state timeout")
  frameWaits := [none]
  navs := [none]
  actions := [none, some (Exc.pwError "element not actionable")]
  assertResult := none

theorem session_teardown_invariant_witness :
    envC1.startResult = none ∧
    ((runFlow tc004 envC1).2.count Event.driverStart = 1 ∧
     (runFlow tc004 envC1).2.count Event.stopDriver = 1 ∧
     List.Sublist ((runFlow tc004 envC1).2.filter isTeardown)
       [Event.closeContext, Event.closeBrowser, Event.stopDriver]) :=
  ⟨rfl, session_teardown_invariant tc004 envC1 rfl⟩

/-- Claim C10: teardown is guarded against partial acquisition — each of the
three resources is closed during teardown exactly when its acquisition call
returned (its handle is non-None); close is never invoked on a resource whose
acquisition did not complete. -/
theorem guarded_teardown (cfg : Flow) (env : Env) :
    (Event.closeContext ∈ (runFlow cfg env).2 ↔ ctxAcq env = true) ∧
    (Event.closeBrowser ∈ (runFlow cfg env).2 ↔ browAcq env = true) ∧
    (Event.stopDriver ∈ (runFlow cfg env).2 ↔ drvAcq env = true) := by
  have hf := runFlow_filter_teardown cfg env
  refine ⟨?_, ?_, ?_⟩
  · rw [← mem_teardown_ctx (ctxAcq env) (browAcq env) (drvAcq env), ← hf]
    simp [List.mem_filter, isTeardown]
  · rw [← mem_teardown_brw (ctxAcq env) (browAcq env) (drvAcq env), ← hf]
    simp [List.mem_filter, isTeardown]
  · rw [← mem_teardown_drv (ctxAcq env) (browAcq env) (drvAcq env), ← hf]
    simp [List.mem_filter, isTeardown]

/-- Claim C5: the best-effort load-state waits never decide the flow — in any
environment, replacing the results of the main-page wait and of all the
per-frame waits by any other recoverable results (success, or a timeout of the
automation library) leaves the flow outcome unchanged. -/
theorem bestEffort_swallow_invariant (cfg : Flow) (env : Env)
    (m : Option Exc) (f : List (Option Exc))
    (hm : benign env.mainLoadWait = true) (hf : ∀ w ∈ env.frameWaits, benign w = true)
    (hm2 : benign m = true) (hf2 : ∀ w ∈ f, benign w = true) :
    (runFlow cfg { env with mainLoadWait := m, frameWaits := f }).1 =
      (runFlow cfg env).1 := by
  unfold runFlow
  cases h1 : env.startResult with
  | some e => simp [h1]
  | none =>
  cases h2 : env.launchResult with
  | some e => simp [h1, h2]
  | none =>
  cases h3 : env.newContextResult with
  | some e => simp [h1, h2, h3]
  | none =>
  cases h4 : env.newPageResult with
  | some e => simp [h1, h2, h3, h4]
  | none =>
    simp only [h1, h2, h3, h4]
    rw [runMain_fst_benign _ _ hm2 hf2, runMain_fst_benign cfg env hm hf]
    rfl

/-- A concrete execution exercising Claim C5. -/
def envC5 : Env where
  startResult := none
  launchResult := none
  newContextResult := none
  newPageResult := none
  mainLoadWait := none
  frameWaits := [some (Exc.pwError "frame 0 load state timeout")]
  navs := [none]
  actions := []
  assertResult := none

theorem bestEffort_swallow_invariant_witness :
    (benign envC5.mainLoadWait = true ∧ (∀ w ∈ envC5.frameWaits, benign w = true) ∧
     benign (some (Exc.pwError "main timeout")) = true ∧
     (∀ w ∈ ([none, some (Exc.pwError "f1")] : List (Option Exc)), benign w = true)) ∧
    (runFlow tc004 { envC5 with
        mainLoadWait := some (Exc.pwError "main timeout"),
        frameWaits := [none, some (Exc.pwError "f1")] }).1 =
      (runFlow tc004 envC5).1 :=
  ⟨⟨by decide, by decide, by decide, by decide⟩,
    bestEffort_swallow_invariant tc004 envC5 (some (Exc.pwError "main timeout"))
      [none, some (Exc.pwError "f1")] (by decide) (by decide) (by decide) (by decide)⟩

theorem bestEffortWait_not_pw {e : Exc} (h : e.isPwError = false) :
    bestEffortWait (some e) = some e := by
  simp [bestEffortWait, h]

theorem frameLoop_fst_abort (pre post : List (Option Exc)) (e : Exc) (i : Nat)
    (hpre : ∀ w ∈ pre, benign w = true) (he : e.isPwError = false) :
    (frameLoop (pre ++ some e :: post) i).1 = some e := by
  induction pre generalizing i with
  | nil => simp [frameLoop, bestEffortWait_not_pw he]
  | cons w ws ih =>
    have hw : bestEffortWait w = none :=
      (bestEffortWait_eq_none_iff w).mpr (hpre w (List.mem_cons_self _ _))
    simp only [List.cons_append, frameLoop, hw]
    exact ih (i + 1) (fun x hx => hpre x (List.mem_cons_of_mem _ hx))

/-- Claim C9: the best-effort swallow is narrow — the load-state wrapper
recovers exactly from automation-library errors, and an exception of any other
type raised during the main-page wait or during one of the frame waits
propagates out of the flow as its outcome. -/
theorem narrow_swallow (cfg : Flow) (env : Env) (e : Exc)
    (hsetup : setupOk env) (hnav : env.navs.headD none = none) :
    (∀ x : Exc, bestEffortWait (some x) = none ↔ x.isPwError = true) ∧
    (env.mainLoadWait = some e → e.isPwError = false → (runFlow cfg env).1 = some e) ∧
    (∀ pre post, env.frameWaits = pre ++ some e :: post →
      (∀ w ∈ pre, benign w = true) → benign env.mainLoadWait = true →
      e.isPwError = false → (runFlow cfg env).1 = some e) := by
  refine ⟨?_, ?_, ?_⟩
  · intro x
    cases x <;> simp [bestEffortWait, Exc.isPwError]
  · intro hml hpw
    rw [runFlow_setupOk cfg env hsetup]
    simp only [runMain, andThen_fst, opStep, hnav, hml, bestEffortWait_not_pw hpw]
  · intro pre post hfw hpre hml hpw
    rw [runFlow_setupOk cfg env hsetup]
    have hbw : bestEffortWait env.mainLoadWait = none :=
      (bestEffortWait_eq_none_iff _).mpr hml
    have hfl : (frameLoop env.frameWaits 0).1 = some e :=
      hfw ▸ frameLoop_fst_abort pre post e 0 hpre hpw
    simp only [runMain, andThen_fst, opStep, hnav, hbw, hfl]

/-- A concrete execution exercising Claim C9: a non-automation exception
raised during the second frame wait. -/
def envC9 : Env where
  startResult := none
  launchResult := none
  newContextResult := none
  newPageResult := none
  mainLoadWait := none
  frameWaits := [none, some (Exc.otherExc "KeyboardInterrupt")]
  navs := []
  actions := []
  assertResult := none

theorem narrow_swallow_witness :
    (setupOk envC9 ∧ envC9.navs.headD none = none) ∧
    ((∀ x : Exc, bestEffortWait (some x) = none ↔ x.isPwError = true) ∧
     (envC9.mainLoadWait = some (Exc.otherExc "KeyboardInterrupt") →
       (Exc.otherExc "KeyboardInterrupt").isPwError = false →
       (runFlow tc004 envC9).1 = some (Exc.otherExc "KeyboardInterrupt")) ∧
     (∀ pre post, envC9.frameWaits = pre ++ some (Exc.otherExc "KeyboardInterrupt") :: post →
       (∀ w ∈ pre, benign w = true) → benign envC9.mainLoadWait = true →
       (Exc.otherExc "KeyboardInterrupt").isPwError = false →
       (runFlow tc004 envC9).1 = some (Exc.otherExc "KeyboardInterrupt"))) :=
  ⟨⟨⟨rfl, rfl, rfl, rfl⟩, rfl⟩,
    narrow_swallow tc004 envC9 (Exc.otherExc "KeyboardInterrupt") ⟨rfl, rfl, rfl, rfl⟩ rfl⟩

/-! ### Success-path computation of the whole flow -/

theorem runMain_all_ok (cfg : Flow) (env : Env)
    (hn : ∀ r ∈ env.navs, r = none) (hm : benign env.mainLoadWait = true)
    (hf : ∀ w ∈ env.frameWaits, benign w = true) (ha : ∀ r ∈ env.actions, r = none) :
    runMain cfg env = ((runAssert cfg env).1,
      Event.goto cfg.baseUrl WaitUntil.commit 10000 :: Event.mainWait 3000 ::
        ((frameLoop env.frameWaits 0).2 ++
          (itemsEvents 5000 cfg.items ++ (runAssert cfg env).2))) := by
  have hnav : env.navs.headD none = none := headD_none hn
  have hbw : bestEffortWait env.mainLoadWait = none := (bestEffortWait_eq_none_iff _).mpr hm
  have hfr : (frameLoop env.frameWaits 0).1 = none := frameLoop_fst_benign _ 0 hf
  have hit := runItems_ok 5000 cfg.items env.actions env.navs.tail ha (allNone_tail hn)
  simp only [runMain, andThen, opStep, hnav, hbw, hfr, hit, List.cons_append, List.nil_append]

theorem frameLoop_filter_not (p : Event → Bool)
    (hp : ∀ j t, p (Event.frameWait j t) = false) (ws : List (Option Exc)) (i : Nat) :
    ((frameLoop ws i).2).filter p = [] := by
  refine List.filter_eq_nil_iff.mpr fun e he => ?_
  have hw := frameLoop_events ws i e he
  cases e <;> simp_all [isFrameWait, hp]

theorem runAssert_filter_not (cfg : Flow) (env : Env) (p : Event → Bool)
    (hp1 : ∀ s t, p (Event.expectVisible s t) = false)
    (hp2 : ∀ s, p (Event.sleepSecs s) = false) :
    ((runAssert cfg env).2).filter p = [] := by
  refine List.filter_eq_nil_iff.mpr fun e he => ?_
  have hw := runAssert_events cfg env e he
  cases e <;> simp_all [isAssertEvent, hp1, hp2]

/-- Claim C2: with a reachable application and all interactions succeeding,
when the final success indicator of the password-reset flow does not become
visible within its timeout (the visibility expectation raises
`AssertionError`), the flow yields exactly the domain assertion failure whose
message contains "password was not updated" — the raw automation error never
escapes the flow boundary. -/
theorem tc004_unreachable_indicator (env : Env) (m : String)
    (hsetup : setupOk env)
    (hm : benign env.mainLoadWait = true) (hf : ∀ w ∈ env.frameWaits, benign w = true)
    (hn : ∀ r ∈ env.navs, r = none) (ha : ∀ r ∈ env.actions, r = none)
    (hassert : env.assertResult = some (Exc.assertionError m)) :
    (runFlow tc004 env).1 = some (Exc.assertionError tc004.failMsg) ∧
    containsSub tc004.failMsg "password was not updated" = true := by
  constructor
  · rw [runFlow_setupOk _ _ hsetup]
    show (runMain tc004 env).1 = _
    rw [runMain_all_ok _ _ hn hm hf ha]
    show (runAssert tc004 env).1 = _
    rw [runAssert_fst_assertionError _ _ m hassert]
  · decide

/-- A concrete execution exercising Claim C2: everything succeeds except the
final visibility expectation. -/
def envC2 : Env where
  startResult := none
  launchResult := none
  newContextResult := none
  newPageResult := none
  mainLoadWait := none
  frameWaits := []
  navs := []
  actions := []
  assertResult := some (Exc.assertionError "Locator expected to be visible")

theorem tc004_unreachable_indicator_witness :
    (setupOk envC2 ∧ benign envC2.mainLoadWait = true ∧
     (∀ w ∈ envC2.frameWaits, benign w = true) ∧ (∀ r ∈ envC2.navs, r = none) ∧
     (∀ r ∈ envC2.actions, r = none) ∧
     envC2.assertResult = some (Exc.assertionError "Locator expected to be visible")) ∧
    ((runFlow tc004 envC2).1 = some (Exc.assertionError tc004.failMsg) ∧
     containsSub tc004.failMsg "password was not updated" = true) :=
  ⟨⟨⟨rfl, rfl, rfl, rfl⟩, rfl, by decide, by decide, by decide, rfl⟩,
    tc004_unreachable_indicator envC2 "Locator expected to be visible"
      ⟨rfl, rfl, rfl, rfl⟩ rfl (by decide) (by decide) (by decide) rfl⟩

theorem expect_mem_runAssert (cfg : Flow) (env : Env) :
    Event.expectVisible cfg.assertText cfg.assertTimeoutMs ∈ (runAssert cfg env).2 := by
  unfold runAssert
  cases env.assertResult with
  | none => simp
  | some e => cases he : e.isAssertionError <;> simp [he]

/-- Claim C4: with a reachable application and every interaction call
succeeding, the password-reset flow performs exactly the authored click/fill
sequence — filling `test@simplifaq.ch` once and the new password
`NewPass123!` exactly twice — navigates to the reset-token URL, and ends Passed
exactly when the literal text "Password Reset Successful!" becomes visible. -/
theorem tc004_happy_path (env : Env) (hsetup : setupOk env)
    (hm : benign env.mainLoadWait = true) (hf : ∀ w ∈ env.frameWaits, benign w = true)
    (hn : ∀ r ∈ env.navs, r = none) (ha : ∀ r ∈ env.actions, r = none) :
    ((runFlow tc004 env).1 = none ↔ env.assertResult = none) ∧
    (runFlow tc004 env).2.filter isAction =
      [Event.click "xpath=html/body/div/div/div[2]/div/div/form/div[3]/button" 5000,
       Event.fill "xpath=html/body/div/div/div[2]/div/form/div[2]/input" "test@simplifaq.ch" 5000,
       Event.click "xpath=html/body/div/div/div[2]/div/form/button" 5000,
       Event.fill "xpath=html/body/div/div/div[2]/div/form/div[2]/div/input" "NewPass123!" 5000,
       Event.fill "xpath=html/body/div/div/div[2]/div/form/div[3]/div/input" "NewPass123!" 5000,
       Event.click "xpath=html/body/div/div/div[2]/div/form/button" 5000] ∧
    Event.goto "http://localhost:3000/reset-password?token=exampletoken" WaitUntil.load 10000
      ∈ (runFlow tc004 env).2 ∧
    Event.expectVisible "Password Reset Successful!" 3000 ∈ (runFlow tc004 env).2 := by
  have htr := runFlow_setupOk tc004 env hsetup
  have hmn := runMain_all_ok tc004 env hn hm hf ha
  refine ⟨?_, ?_, ?_, ?_⟩
  · rw [htr]
    show (runMain tc004 env).1 = none ↔ _
    rw [hmn]
    exact runAssert_fst_some tc004 env
  · simp only [htr, hmn, List.filter_append, List.filter_cons,
      frameLoop_filter_not isAction (fun _ _ => rfl) env.frameWaits 0,
      runAssert_filter_not tc004 env isAction (fun _ _ => rfl) (fun _ => rfl)]
    rfl
  · have h1 : Event.goto "http://localhost:3000/reset-password?token=exampletoken"
        WaitUntil.load 10000 ∈ itemsEvents 5000 tc004.items := by decide
    simp only [htr, hmn]
    simp only [List.mem_append, List.mem_cons]
    tauto
  · have h2 : Event.expectVisible "Password Reset Successful!" 3000
        ∈ (runAssert tc004 env).2 := expect_mem_runAssert tc004 env
    simp only [htr, hmn]
    simp only [List.mem_append, List.mem_cons]
    tauto

/-- A concrete execution exercising Claim C4: everything succeeds and the
success indicator becomes visible. -/
def envC4 : Env where
  startResult := none
  launchResult := none
  newContextResult := none
  newPageResult := none
  mainLoadWait := none
  frameWaits := [none]
  navs := []
  actions := []
  assertResult := none

theorem tc004_happy_path_witness :
    (setupOk envC4 ∧ benign envC4.mainLoadWait = true ∧
     (∀ w ∈ envC4.frameWaits, benign w = true) ∧ (∀ r ∈ envC4.navs, r = none) ∧
     (∀ r ∈ envC4.actions, r = none)) ∧
    (((runFlow tc004 envC4).1 = none ↔ envC4.assertResult = none) ∧
     (runFlow tc004 envC4).2.filter isAction =
       [Event.click "xpath=html/body/div/div/div[2]/div/div/form/div[3]/button" 5000,
        Event.fill "xpath=html/body/div/div/div[2]/div/form/div[2]/input" "test@simplifaq.ch" 5000,
        Event.click "xpath=html/body/div/div/div[2]/div/form/button" 5000,
        Event.fill "xpath=html/body/div/div/div[2]/div/form/div[2]/div/input" "NewPass123!" 5000,
        Event.fill "xpath=html/body/div/div/div[2]/div/form/div[3]/div/input" "NewPass123!" 5000,
        Event.click "xpath=html/body/div/div/div[2]/div/form/button" 5000] ∧
     Event.goto "http://localhost:3000/reset-password?token=exampletoken" WaitUntil.load 10000
       ∈ (runFlow tc004 envC4).2 ∧
     Event.expectVisible "Password Reset Successful!" 3000 ∈ (runFlow tc004 envC4).2) :=
  ⟨⟨⟨rfl, rfl, rfl, rfl⟩, rfl, by decide, by decide, by decide⟩,
    tc004_happy_path envC4 ⟨rfl, rfl, rfl, rfl⟩ rfl (by decide) (by decide) (by decide)⟩

/-- Claim C3: with every interaction of the invoice-payment flow succeeding
(logging in with the demo credentials, creating an invoice, assigning the
client), the flow ends Passed exactly when the text
"Invoice Payment Confirmed Successfully" becomes visible within the 1000 ms
assertion timeout; when the expectation times out instead, the flow yields the
domain failure message citing the stuck Sent-to-Paid transition. -/
theorem tc013_invoice_outcome (env : Env) (hsetup : setupOk env)
    (hm : benign env.mainLoadWait = true) (hf : ∀ w ∈ env.frameWaits, benign w = true)
    (hn : ∀ r ∈ env.navs, r = none) (ha : ∀ r ∈ env.actions, r = none) :
    ((runFlow tc013 env).1 = none ↔ env.assertResult = none) ∧
    (∀ m, env.assertResult = some (Exc.assertionError m) →
      (runFlow tc013 env).1 = some (Exc.assertionError tc013.failMsg)) ∧
    containsSub tc013.failMsg "from Sent to Paid" = true ∧
    Event.expectVisible "Invoice Payment Confirmed Successfully" 1000 ∈ (runFlow tc013 env).2 ∧
    Event.fill "xpath=html/body/div/div/div[2]/div/div/form/div/div/input"
      "demo@chocolaterie-suisse.ch" 5000 ∈ (runFlow tc013 env).2 ∧
    Event.fill "xpath=html/body/div/div/div[2]/div/div/form/div[2]/div/input"
      "DemoUser2024!" 5000 ∈ (runFlow tc013 env).2 ∧
    Event.fill "xpath=html/body/div/div/div[2]/main/div/div/form/div[3]/div/div/div/div/div/div/div/div/input"
      "Chocolaterie Suisse SA" 5000 ∈ (runFlow tc013 env).2 := by
  have htr := runFlow_setupOk tc013 env hsetup
  have hmn := runMain_all_ok tc013 env hn hm hf ha
  refine ⟨?_, ?_, by decide, ?_, ?_, ?_, ?_⟩
  · rw [htr]
    show (runMain tc013 env).1 = none ↔ _
    rw [hmn]
    exact runAssert_fst_some tc013 env
  · intro m hassert
    rw [htr]
    show (runMain tc013 env).1 = _
    rw [hmn]
    show (runAssert tc013 env).1 = _
    rw [runAssert_fst_assertionError _ _ m hassert]
  · have h2 : Event.expectVisible "Invoice Payment Confirmed Successfully" 1000
        ∈ (runAssert tc013 env).2 := expect_mem_runAssert tc013 env
    simp only [htr, hmn]
    simp only [List.mem_append, List.mem_cons]
    tauto
  · have h1 : Event.fill "xpath=html/body/div/div/div[2]/div/div/form/div/div/input"
        "demo@chocolaterie-suisse.ch" 5000 ∈ itemsEvents 5000 tc013.items := by decide
    simp only [htr, hmn]
    simp only [List.mem_append, List.mem_cons]
    tauto
  · have h1 : Event.fill "xpath=html/body/div/div/div[2]/div/div/form/div[2]/div/input"
        "DemoUser2024!" 5000 ∈ itemsEvents 5000 tc013.items := by decide
    simp only [htr, hmn]
    simp only [List.mem_append, List.mem_cons]
    tauto
  · have h1 : Event.fill "xpath=html/body/div/div/div[2]/main/div/div/form/div[3]/div/div/div/div/div/div/div/div/input"
        "Chocolaterie Suisse SA" 5000 ∈ itemsEvents 5000 tc013.items := by decide
    simp only [htr, hmn]
    simp only [List.mem_append, List.mem_cons]
    tauto

/-- A concrete execution exercising Claim C3: all steps succeed but the
confirmation text never becomes visible. -/
def envC3 : Env where
  startResult := none
  launchResult := none
  newContextResult := none
  newPageResult := none
  mainLoadWait := some (Exc.pwError "load state timeout")
  frameWaits := []
  navs := []
  actions := []
  assertResult := some (Exc.assertionError "Locator expected to be visible")

theorem tc013_invoice_outcome_witness :
    (setupOk envC3 ∧ benign envC3.mainLoadWait = true ∧
     (∀ w ∈ envC3.frameWaits, benign w = true) ∧ (∀ r ∈ envC3.navs, r = none) ∧
     (∀ r ∈ envC3.actions, r = none)) ∧
    (((runFlow tc013 envC3).1 = none ↔ envC3.assertResult = none) ∧
     (∀ m, envC3.assertResult = some (Exc.assertionError m) →
       (runFlow tc013 envC3).1 = some (Exc.assertionError tc013.failMsg)) ∧
     containsSub tc013.failMsg "from Sent to Paid" = true ∧
     Event.expectVisible "Invoice Payment Confirmed Successfully" 1000 ∈ (runFlow tc013 envC3).2 ∧
     Event.fill "xpath=html/body/div/div/div[2]/div/div/form/div/div/input"
       "demo@chocolaterie-suisse.ch" 5000 ∈ (runFlow tc013 envC3).2 ∧
     Event.fill "xpath=html/body/div/div/div[2]/div/div/form/div[2]/div/input"
       "DemoUser2024!" 5000 ∈ (runFlow tc013 envC3).2 ∧
     Event.fill "xpath=html/body/div/div/div[2]/main/div/div/form/div[3]/div/div/div/div/div/div/div/div/input"
       "Chocolaterie Suisse SA" 5000 ∈ (runFlow tc013 envC3).2) :=
  ⟨⟨⟨rfl, rfl, rfl, rfl⟩, rfl, by decide, by decide, by decide⟩,
    tc013_invoice_outcome envC3 ⟨rfl, rfl, rfl, rfl⟩ rfl (by decide) (by decide) (by decide)⟩

/-! ### Which events a flow can emit, and in which order -/

theorem filter_isPre_mono (p : Event → Bool) {l1 l2 : List Event} (h : l1 <+: l2) :
    l1.filter p <+: l2.filter p := by
  obtain ⟨t, rfl⟩ := h
  exact ⟨t.filter p, by rw [← List.filter_append]⟩

theorem isPre_append_left (r : List Event) {l1 l2 : List Event} (h : l1 <+: l2) :
    r ++ l1 <+: r ++ l2 := by
  obtain ⟨t, rfl⟩ := h
  exact ⟨t, by rw [List.append_assoc]⟩

theorem isPre_of_nil (l : List Event) : [] <+: l := ⟨l, rfl⟩

theorem mem_of_isPre {l1 l2 : List Event} (h : l1 <+: l2) {e : Event} (he : e ∈ l1) :
    e ∈ l2 := by
  obtain ⟨t, rfl⟩ := h
  exact List.mem_append_left t he

theorem runMain_filter_body (cfg : Flow) (env : Env) (p : Event → Bool)
    (hmw : ∀ t, p (Event.mainWait t) = false)
    (hfw : ∀ j t, p (Event.frameWait j t) = false)
    (hex : ∀ s t, p (Event.expectVisible s t) = false)
    (hsl : ∀ s, p (Event.sleepSecs s) = false) :
    (runMain cfg env).2.filter p <+:
      List.filter p [Event.goto cfg.baseUrl WaitUntil.commit 10000] ++
        (itemsEvents 5000 cfg.items).filter p := by
  have hA : (andThen (runItems 5000 cfg.items env.actions env.navs.tail)
      (runAssert cfg env)).2.filter p <+: (itemsEvents 5000 cfg.items).filter p := by
    have t2 := filter_isPre_mono p (andThen_trace_isPre
      (runItems 5000 cfg.items env.actions env.navs.tail) (runAssert cfg env))
    rw [List.filter_append, runAssert_filter_not cfg env p hex hsl, List.append_nil] at t2
    exact t2.trans (filter_isPre_mono p
      (runItems_trace_isPre 5000 cfg.items env.actions env.navs.tail))
  unfold runMain
  cases h1 : env.navs.headD none with
  | some e =>
    rw [andThen_fail _ e (by simp [opStep, h1])]
    exact ⟨(itemsEvents 5000 cfg.items).filter p, rfl⟩
  | none =>
    rw [andThen_ok _ (by simp [opStep, h1])]
    show ((opStep (none : Option Exc) (Event.goto cfg.baseUrl WaitUntil.commit 10000)).2 ++ _).filter p <+: _
    rw [List.filter_append]
    refine isPre_append_left _ ?_
    cases h2 : bestEffortWait env.mainLoadWait with
    | some e =>
      rw [andThen_fail _ e (by simp [opStep, h2])]
      show List.filter p [Event.mainWait 3000] <+: _
      simp [List.filter_cons, hmw]
    | none =>
      rw [andThen_ok _ (by simp [opStep, h2])]
      show ((opStep (none : Option Exc) (Event.mainWait 3000)).2 ++ _).filter p <+: _
      rw [List.filter_append]
      have hmw0 : List.filter p [Event.mainWait 3000] = [] := by
        simp [List.filter_cons, hmw]
      show List.filter p [Event.mainWait 3000] ++ _ <+: _
      rw [hmw0, List.nil_append]
      cases h3 : (frameLoop env.frameWaits 0).1 with
      | some e =>
        rw [andThen_fail _ e h3]
        show ((frameLoop env.frameWaits 0).2).filter p <+: _
        rw [frameLoop_filter_not p hfw]
        exact isPre_of_nil _
      | none =>
        rw [andThen_ok _ h3]
        show ((frameLoop env.frameWaits 0).2 ++ _).filter p <+: _
        rw [List.filter_append, frameLoop_filter_not p hfw, List.nil_append]
        exact hA

theorem runFlow_filter_body (cfg : Flow) (env : Env) (p : Event → Bool)
    (hds : p Event.driverStart = false) (hbl : p Event.browserLaunch = false)
    (hcn : p Event.contextNew = false) (hdt : ∀ ms, p (Event.setDefaultTimeout ms) = false)
    (hpn : p Event.pageNew = false)
    (hcc : p Event.closeContext = false) (hcb : p Event.closeBrowser = false)
    (hsd : p Event.stopDriver = false)
    (hmw : ∀ t, p (Event.mainWait t) = false)
    (hfw : ∀ j t, p (Event.frameWait j t) = false)
    (hex : ∀ s t, p (Event.expectVisible s t) = false)
    (hsl : ∀ s, p (Event.sleepSecs s) = false) :
    (runFlow cfg env).2.filter p <+:
      List.filter p [Event.goto cfg.baseUrl WaitUntil.commit 10000] ++
        (itemsEvents 5000 cfg.items).filter p := by
  unfold runFlow
  cases h1 : env.startResult with
  | some e =>
    simp [teardown, List.filter_cons, List.filter_append, hds, hbl, hcn, hdt, hpn, hcc, hcb, hsd]
  | none =>
  cases h2 : env.launchResult with
  | some e =>
    simp [teardown, List.filter_cons, List.filter_append, hds, hbl, hcn, hdt, hpn, hcc, hcb, hsd]
  | none =>
  cases h3 : env.newContextResult with
  | some e =>
    simp [teardown, List.filter_cons, List.filter_append, hds, hbl, hcn, hdt, hpn, hcc, hcb, hsd]
  | none =>
  cases h4 : env.newPageResult with
  | some e =>
    simp [teardown, List.filter_cons, List.filter_append, hds, hbl, hcn, hdt, hpn, hcc, hcb, hsd]
  | none =>
    have hsetup : List.filter p setupTrace = [] := by
      simp [setupTrace, List.filter_cons, hds, hbl, hcn, hdt, hpn]
    have htd : List.filter p (teardown true true true) = [] := by
      simp [teardown, List.filter_cons, List.filter_append, hcc, hcb, hsd]
    show (setupTrace ++ (runMain cfg env).2 ++ teardown true true true).filter p <+: _
    rw [List.filter_append, List.filter_append, hsetup, htd, List.nil_append,
      List.append_nil]
    exact runMain_filter_body cfg env p hmw hfw hex hsl

theorem runFlow_all_events (cfg : Flow) (env : Env) (p : Event → Bool)
    (hnb : ∀ e, isBody e = false → p e = true)
    (hgoto : p (Event.goto cfg.baseUrl WaitUntil.commit 10000) = true)
    (hmw : ∀ t, p (Event.mainWait t) = true)
    (hfw : ∀ j t, p (Event.frameWait j t) = true)
    (hitems : ∀ e ∈ itemsEvents 5000 cfg.items, p e = true)
    (hex : ∀ s t, p (Event.expectVisible s t) = true)
    (hsl : ∀ s, p (Event.sleepSecs s) = true) :
    ∀ e ∈ (runFlow cfg env).2, p e = true := by
  have htd : ∀ c b d, ∀ e ∈ teardown c b d, p e = true := by
    intro c b d e he
    cases c <;> cases b <;> cases d <;> simp [teardown] at he <;>
      rcases he with he | he | he <;> try subst he
    all_goals first
      | exact hnb Event.closeContext rfl
      | exact hnb Event.closeBrowser rfl
      | exact hnb Event.stopDriver rfl
  intro e he
  unfold runFlow at he
  split at he
  · exact htd false false false e he
  split at he
  · rcases List.mem_cons.mp he with h | h
    · subst h; exact hnb Event.driverStart rfl
    · exact htd false false true e h
  split at he
  · rcases List.mem_append.mp he with h | h
    · simp at h
      rcases h with h | h <;> subst h
      · exact hnb Event.driverStart rfl
      · exact hnb Event.browserLaunch rfl
    · exact htd false true true e h
  split at he
  · rcases List.mem_append.mp he with h | h
    · simp at h
      rcases h with h | h | h | h <;> subst h
      · exact hnb Event.driverStart rfl
      · exact hnb Event.browserLaunch rfl
      · exact hnb Event.contextNew rfl
      · exact hnb (Event.setDefaultTimeout 5000) rfl
    · exact htd true true true e h
  · rcases List.mem_append.mp he with h | h
    · rcases List.mem_append.mp h with h | h
      · simp [setupTrace] at h
        rcases h with h | h | h | h | h <;> subst h
        · exact hnb Event.driverStart rfl
        · exact hnb Event.browserLaunch rfl
        · exact hnb Event.contextNew rfl
        · exact hnb (Event.setDefaultTimeout 5000) rfl
        · exact hnb Event.pageNew rfl
      · -- e is in the main body trace
        unfold runMain at h
        rcases mem_andThen h with h | h
        · simp [opStep] at h; subst h; exact hgoto
        rcases mem_andThen h with h | h
        · simp [opStep] at h; subst h; exact hmw 3000
        rcases mem_andThen h with h | h
        · have hfr := frameLoop_events env.frameWaits 0 e h
          cases e <;> simp_all [isFrameWait]
        rcases mem_andThen h with h | h
        · exact hitems e (mem_of_isPre
            (runItems_trace_isPre 5000 cfg.items env.actions env.navs.tail) h)
        · have har := runAssert_events cfg env e h
          cases e <;> simp_all [isAssertEvent]
    · exact htd true true true e h

/-- Predicate of the claim that every navigation waits only for commit. -/
def gotoCommitOnly : Event → Bool
  | .goto _ wu _ => wu == WaitUntil.commit
  | _ => true

/-- A fully successful execution environment used as the concrete input of
the Claim C6 counterexample. -/
def envC6 : Env where
  startResult := none
  launchResult := none
  newContextResult := none
  newPageResult := none
  mainLoadWait := none
  frameWaits := []
  navs := []
  actions := []
  assertResult := none

/-- Claim C6 counterexample: in a fully successful run of the password-reset
flow, the trace contains a navigation that does not use the commit wait
policy — the mid-flow `goto` to the reset-token URL carries no
`wait_until="commit"` argument and therefore waits for the default full
page load. -/
theorem tc004_mid_navigation_full_load :
    (runFlow tc004 envC6).2.all gotoCommitOnly = false ∧
    Event.goto "http://localhost:3000/reset-password?token=exampletoken" WaitUntil.load 10000
      ∈ (runFlow tc004 envC6).2 := by
  constructor
  · decide
  · decide

/-- Claim C6 (amended): in both flows every navigation is bounded by a
10000 ms outer timeout; the initial navigation of each flow waits only until
the request is committed, but the one other navigation — the password-reset
flow's mid-flow `goto` to the reset-token URL — waits for the default full
page load. -/
theorem navigation_commit_policy (env : Env) :
    ((runFlow tc004 env).2.filter isGoto <+:
      [Event.goto "http://localhost:3000" WaitUntil.commit 10000,
       Event.goto "http://localhost:3000/reset-password?token=exampletoken" WaitUntil.load 10000]) ∧
    ((runFlow tc013 env).2.filter isGoto <+:
      [Event.goto "http://localhost:3000" WaitUntil.commit 10000]) ∧
    (∀ e ∈ (runFlow tc004 env).2, gotoTimeoutOk e = true) ∧
    (∀ e ∈ (runFlow tc013 env).2, gotoTimeoutOk e = true) := by
  refine ⟨?_, ?_, ?_, ?_⟩
  · have h := runFlow_filter_body tc004 env isGoto rfl rfl rfl (fun _ => rfl) rfl rfl rfl rfl
      (fun _ => rfl) (fun _ _ => rfl) (fun _ _ => rfl) (fun _ => rfl)
    exact h
  · have h := runFlow_filter_body tc013 env isGoto rfl rfl rfl (fun _ => rfl) rfl rfl rfl rfl
      (fun _ => rfl) (fun _ _ => rfl) (fun _ _ => rfl) (fun _ => rfl)
    exact h
  · exact runFlow_all_events tc004 env gotoTimeoutOk
      (fun e he => by cases e <;> simp_all [isBody, gotoTimeoutOk]) rfl (fun _ => rfl)
      (fun _ _ => rfl) (by decide) (fun _ _ => rfl) (fun _ => rfl)
  · exact runFlow_all_events tc013 env gotoTimeoutOk
      (fun e he => by cases e <;> simp_all [isBody, gotoTimeoutOk]) rfl (fun _ => rfl)
      (fun _ _ => rfl) (by decide) (fun _ _ => rfl) (fun _ => rfl)

/-- Click/fill events and the settle pauses that precede them. -/
def isActOrSettle (e : Event) : Bool := isAction e || isSettle e

/-- Claim C7: steps execute strictly in authoring order — the click/fill trace
of any run is a prefix of the authored sequence, each action is immediately
preceded by its fixed 3000 ms settle pause, and every click and every fill is
bounded by a 5000 ms timeout (explicit for click, the context default for
fill). -/
theorem step_order_and_settle (env : Env) :
    ((runFlow tc004 env).2.filter isActOrSettle <+:
      [Event.settle 3000, Event.click "xpath=html/body/div/div/div[2]/div/div/form/div[3]/button" 5000,
       Event.settle 3000, Event.fill "xpath=html/body/div/div/div[2]/div/form/div[2]/input" "test@simplifaq.ch" 5000,
       Event.settle 3000, Event.click "xpath=html/body/div/div/div[2]/div/form/button" 5000,
       Event.settle 3000, Event.fill "xpath=html/body/div/div/div[2]/div/form/div[2]/div/input" "NewPass123!" 5000,
       Event.settle 3000, Event.fill "xpath=html/body/div/div/div[2]/div/form/div[3]/div/input" "NewPass123!" 5000,
       Event.settle 3000, Event.click "xpath=html/body/div/div/div[2]/div/form/button" 5000]) ∧
    ((runFlow tc013 env).2.filter isActOrSettle <+:
      [Event.settle 3000, Event.fill "xpath=html/body/div/div/div[2]/div/div/form/div/div/input" "demo@chocolaterie-suisse.ch" 5000,
       Event.settle 3000, Event.fill "xpath=html/body/div/div/div[2]/div/div/form/div[2]/div/input" "DemoUser2024!" 5000,
       Event.settle 3000, Event.click "xpath=html/body/div/div/div[2]/div/div/form/button" 5000,
       Event.settle 3000, Event.fill "xpath=html/body/div/div/div[2]/div/div/form/div/div/input" "demo@chocolaterie-suisse.ch" 5000,
       Event.settle 3000, Event.fill "xpath=html/body/div/div/div[2]/div/div/form/div[2]/div/input" "DemoUser2024!" 5000,
       Event.settle 3000, Event.click "xpath=html/body/div/div/div[2]/div/div/form/button" 5000,
       Event.settle 3000, Event.click "xpath=html/body/div/div/div[2]/main/div/div/main/div/div/div/div[2]/button" 5000,
       Event.settle 3000, Event.fill "xpath=html/body/div/div/div[2]/div/div/form/div/div/input" "demo@chocolaterie-suisse.ch" 5000,
       Event.settle 3000, Event.fill "xpath=html/body/div/div/div[2]/div/div/form/div[2]/div/input" "DemoUser2024!" 5000,
       Event.settle 3000, Event.click "xpath=html/body/div/div/div[2]/div/div/form/button" 5000,
       Event.settle 3000, Event.click "xpath=html/body/div/div/div[2]/main/div/div/main/div/div/div/div[2]/button" 5000,
       Event.settle 3000, Event.click "xpath=html/body/div/div/div[2]/main/div/div/form/div/div[2]/button[2]" 5000,
       Event.settle 3000, Event.fill "xpath=html/body/div/div/div[2]/main/div/div/form/div[3]/div/div/div/div/div/div/div/div/input" "Chocolaterie Suisse SA" 5000,
       Event.settle 3000, Event.click "xpath=html/body/div/div/div[2]/main/div/div/form/div[3]/div/div/div/div/div[2]/div/button" 5000]) ∧
    (∀ e ∈ (runFlow tc004 env).2, actionTimeoutOk e = true) ∧
    (∀ e ∈ (runFlow tc013 env).2, actionTimeoutOk e = true) := by
  refine ⟨?_, ?_, ?_, ?_⟩
  · exact runFlow_filter_body tc004 env isActOrSettle rfl rfl rfl (fun _ => rfl) rfl rfl rfl
      rfl (fun _ => rfl) (fun _ _ => rfl) (fun _ _ => rfl) (fun _ => rfl)
  · exact runFlow_filter_body tc013 env isActOrSettle rfl rfl rfl (fun _ => rfl) rfl rfl rfl
      rfl (fun _ => rfl) (fun _ _ => rfl) (fun _ _ => rfl) (fun _ => rfl)
  · exact runFlow_all_events tc004 env actionTimeoutOk
      (fun e he => by cases e <;> simp_all [isBody, actionTimeoutOk]) rfl (fun _ => rfl)
      (fun _ _ => rfl) (by decide) (fun _ _ => rfl) (fun _ => rfl)
  · exact runFlow_all_events tc013 env actionTimeoutOk
      (fun e he => by cases e <;> simp_all [isBody, actionTimeoutOk]) rfl (fun _ => rfl)
      (fun _ _ => rfl) (by decide) (fun _ _ => rfl) (fun _ => rfl)

/-! ### Abort semantics of a failing step -/

theorem runItems_abort (dt : Nat) (items : List FlowItem)
    (pre post navs : List (Option Exc)) (e : Exc)
    (hpre : ∀ r ∈ pre, r = none) (hnavs : ∀ r ∈ navs, r = none)
    (hcount : pre.length < interactCount items) :
    (runItems dt items (pre ++ some e :: post) navs).1 = some e ∧
    ((runItems dt items (pre ++ some e :: post) navs).2.filter isAction).length =
      pre.length + 1 := by
  induction items generalizing pre navs with
  | nil => simp [interactCount] at hcount
  | cons it rest ih =>
    cases it with
    | interact sel a =>
      cases pre with
      | nil =>
        constructor
        · simp [runItems]
        · cases a <;> simp [runItems, actEvent, isAction, List.filter]
      | cons r pre2 =>
        have hr : r = none := hpre r (List.mem_cons_self _ _)
        subst hr
        have ih2 := ih pre2 navs (fun x hx => hpre x (List.mem_cons_of_mem _ hx)) hnavs
          (Nat.lt_of_succ_lt_succ (by simpa [interactCount] using hcount))
        constructor
        · simpa [runItems] using ih2.1
        · cases a <;>
            simp [runItems, actEvent, isAction, List.filter, ih2.2]
    | navigate u w t =>
      have hnav : navs.headD none = none := headD_none hnavs
      have ih2 := ih pre navs.tail hpre (allNone_tail hnavs)
        (by simpa [interactCount] using hcount)
      constructor
      · simp only [runItems, hnav]
        exact ih2.1
      · simp only [runItems, hnav]
        simpa [List.filter, isAction] using ih2.2
    | sleep s =>
      have ih2 := ih pre navs hpre hnavs (by simpa [interactCount] using hcount)
      constructor
      · simpa [runItems] using ih2.1
      · simpa [runItems, isAction, List.filter] using ih2.2

theorem runMain_abort_items (cfg : Flow) (env : Env) (e : Exc)
    (hn : ∀ r ∈ env.navs, r = none) (hm : benign env.mainLoadWait = true)
    (hf : ∀ w ∈ env.frameWaits, benign w = true)
    (hD : (runItems 5000 cfg.items env.actions env.navs.tail).1 = some e) :
    runMain cfg env = (some e,
      Event.goto cfg.baseUrl WaitUntil.commit 10000 :: Event.mainWait 3000 ::
        ((frameLoop env.frameWaits 0).2 ++
          (runItems 5000 cfg.items env.actions env.navs.tail).2)) := by
  have hnav : env.navs.headD none = none := headD_none hn
  have hbw : bestEffortWait env.mainLoadWait = none := (bestEffortWait_eq_none_iff _).mpr hm
  have hfr : (frameLoop env.frameWaits 0).1 = none := frameLoop_fst_benign _ 0 hf
  simp only [runMain, andThen, opStep, hnav, hbw, hfr, hD, List.cons_append, List.nil_append]

/-- Claim C8: step actions are attempted at most once — a single failing
click/fill aborts every remaining step and the final assertion, no expectation
event ever happens, the actions performed are exactly the authored ones up to
and including the failing attempt, and the raised interaction failure surfaces
unchanged as the flow outcome. -/
theorem single_failure_aborts (cfg : Flow) (env : Env)
    (pre post : List (Option Exc)) (e : Exc)
    (hsetup : setupOk env)
    (hm : benign env.mainLoadWait = true) (hf : ∀ w ∈ env.frameWaits, benign w = true)
    (hn : ∀ r ∈ env.navs, r = none)
    (hacts : env.actions = pre ++ some e :: post)
    (hpre : ∀ r ∈ pre, r = none)
    (hcount : pre.length < interactCount cfg.items) :
    (runFlow cfg env).1 = some e ∧
    ((runFlow cfg env).2.filter isAction).length = pre.length + 1 ∧
    ∀ ev ∈ (runFlow cfg env).2, isExpect ev = false := by
  have hab := runItems_abort 5000 cfg.items pre post env.navs.tail e hpre
    (allNone_tail hn) hcount
  have hD : (runItems 5000 cfg.items env.actions env.navs.tail).1 = some e := by
    rw [hacts]; exact hab.1
  have hDlen : ((runItems 5000 cfg.items env.actions env.navs.tail).2.filter
      isAction).length = pre.length + 1 := by
    rw [hacts]; exact hab.2
  have hmn := runMain_abort_items cfg env e hn hm hf hD
  have htr := runFlow_setupOk cfg env hsetup
  refine ⟨?_, ?_, ?_⟩
  · rw [htr]
    show (runMain cfg env).1 = some e
    rw [hmn]
  · rw [htr]
    show ((setupTrace ++ (runMain cfg env).2 ++ teardown true true true).filter
      isAction).length = _
    rw [hmn]
    simp only [List.filter_append, List.filter_cons,
      frameLoop_filter_not isAction (fun _ _ => rfl) env.frameWaits 0]
    simp [setupTrace, teardown, isAction, hDlen]
  · intro ev hev
    rw [htr] at hev
    rcases List.mem_append.mp hev with hx | hx
    · rcases List.mem_append.mp hx with hy | hy
      · simp [setupTrace] at hy
        rcases hy with hy | hy | hy | hy | hy <;> subst hy <;> rfl
      · simp only [hmn, List.mem_cons, List.mem_append] at hy
        rcases hy with hy | hy | hy | hy
        · subst hy; rfl
        · subst hy; rfl
        · have hfr := frameLoop_events env.frameWaits 0 ev hy
          cases ev <;> simp_all [isFrameWait, isExpect]
        · exact not_isExpect_of_isStepEvent
            (runItems_events_step 5000 cfg.items env.actions env.navs.tail ev hy)
    · simp [teardown] at hx
      rcases hx with hx | hx | hx <;> subst hx <;> rfl

/-- A concrete execution exercising Claim C8: the second click/fill of the
password-reset flow fails. -/
def envC8 : Env where
  startResult := none
  launchResult := none
  newContextResult := none
  newPageResult := none
  mainLoadWait := none
  frameWaits := []
  navs := []
  actions := [none, some (Exc.pwError "element not found")]
  assertResult := none

theorem single_failure_aborts_witness :
    (setupOk envC8 ∧ benign envC8.mainLoadWait = true ∧
     (∀ w ∈ envC8.frameWaits, benign w = true) ∧ (∀ r ∈ envC8.navs, r = none) ∧
     envC8.actions = [none] ++ some (Exc.pwError "element not found") :: [] ∧
     (∀ r ∈ ([none] : List (Option Exc)), r = none) ∧
     ([none] : List (Option Exc)).length < interactCount tc004.items) ∧
    ((runFlow tc004 envC8).1 = some (Exc.pwError "element not found") ∧
     ((runFlow tc004 envC8).2.filter isAction).length =
       ([none] : List (Option Exc)).length + 1 ∧
     ∀ ev ∈ (runFlow tc004 envC8).2, isExpect ev = false) :=
  ⟨⟨⟨rfl, rfl, rfl, rfl⟩, rfl, by decide, by decide, rfl, by decide, by decide⟩,
    single_failure_aborts tc004 envC8 [none] [] (Exc.pwError "element not found")
      ⟨rfl, rfl, rfl, rfl⟩ rfl (by decide) (by decide) rfl (by decide) (by decide)⟩

end S2P
